import Mathlib

/-!
Shallow embedding of `src/unoserver/server.py` (the `UnoServer` supervision
layer) and proofs of the specification claims about it.

The Python module supervises a LibreOffice worker process: it spawns the
worker, connects two capability clients (`UnoConverter`, `UnoComparer`) to it
with a bounded retry budget, serves `info` / `convert` / `compare` over
XML-RPC with a per-call timeout, counts completed requests for `--stop-after`,
and tears everything down through the idempotent `_safe_terminate_process`
routine.  The embedding below models that state and those operations directly
from the source; external effects (whether the worker process is still alive,
how a termination attempt plays out, how a connection attempt fails, how long
a capability operation takes) are supplied as explicit oracle parameters.
-/

namespace Unoserver

/-- Observable status of the spawned LibreOffice process, as seen through
`Popen.poll()`: `running` means `poll()` returns `None`, `exited` means
`poll()` returns an exit status. -/
inductive ProcStatus
  | running
  | exited
  deriving DecidableEq, Repr

/-- Environment oracle for one invocation of `_safe_terminate_process` on a
still-running process (server.py lines 147-165): either the graceful
`killpg SIGTERM` + `wait(timeout=5)` succeeds, or it times out and the forced
`kill()` + `wait(timeout=3)` succeeds, or the forced kill itself fails (caught
and logged, line 162-163), or the graceful phase raises some other exception
(caught and logged, line 164-165). -/
inductive TermBehavior
  | gracefulOk
  | gracefulTimeoutKillOk
  | gracefulTimeoutKillFail
  | otherException
  deriving DecidableEq, Repr

/-- Result of one call to `_safe_terminate_process`: the new value of
`self.libreoffice_process`, whether any termination action was actually sent
to the process, and whether an exception escaped to the caller. -/
structure TermResult where
  handle : Option ProcStatus
  signaled : Bool
  raised : Bool
  deriving DecidableEq, Repr

/-- Embedding of `UnoServer._safe_terminate_process` (server.py lines
137-167).  If the handle is `None` it returns immediately; if `poll()` shows
the process already exited it clears the handle and returns; otherwise it
signals the process group, with every failure mode caught inside the routine
(`except subprocess.TimeoutExpired`, the inner `except Exception` around
`kill()`, and the outer `except Exception`), and the `finally:` clause resets
`self.libreoffice_process = None` on every one of those paths. -/
def safeTerminateProcess (beh : TermBehavior) (p : Option ProcStatus) : TermResult :=
  match p with
  | none => ⟨none, false, false⟩
  | some ProcStatus.exited => ⟨none, false, false⟩
  | some ProcStatus.running =>
    match beh with
    | TermBehavior.gracefulOk => ⟨none, true, false⟩
    | TermBehavior.gracefulTimeoutKillOk => ⟨none, true, false⟩
    | TermBehavior.gracefulTimeoutKillFail => ⟨none, true, false⟩
    | TermBehavior.otherException => ⟨none, true, false⟩

/-- Mutable state of a `UnoServer` instance (the fields assigned in
`__init__`, lines 58-68, plus `number_of_requests` from line 231 and a flag
recording whether `self.conv.local_context.dispose()` has been called).
Booleans `xmlrcpServer`, `threadExists` model whether the corresponding field
is non-`None`; `serving` models whether `serve_forever` is still accepting;
`threadAlive` whether the serving thread is still running. -/
structure ServiceState where
  libreofficeProcess : Option ProcStatus
  intentionalExit : Bool
  xmlrcpServer : Bool
  serving : Bool
  threadExists : Bool
  threadAlive : Bool
  numberOfRequests : Nat
  stopAfter : Option Nat
  conversionTimeout : Option Nat
  convDisposed : Bool
  deriving DecidableEq, Repr

/-- Outcome of one attempt to construct a capability client
(`converter.UnoConverter(...)` / `comparer.UnoComparer(...)`): success, a
`UnoException` whose text contains `"Connection refused"`, or any other
`UnoException`. -/
inductive ConnOutcome
  | success
  | refused
  | otherError
  deriving DecidableEq, Repr

/-- One failed attempt of the connection retry loop, recording its class,
how much it cost the attempt budget, and how long the loop slept. -/
structure AttemptRec where
  outcome : ConnOutcome
  cost : Nat
  sleep : Nat
  deriving DecidableEq, Repr

/-- Fuel-indexed embedding of the `while attempts > 0:` retry loop in
`UnoServer.serve` (server.py lines 173-192 for the converter, 201-220 for
the comparer; both loops have identical budget arithmetic).  The budget is an
`Int` because Python lets `attempts -= 4` pass below zero.  Each iteration
consumes at least one unit of budget, so `budget.toNat` units of fuel always
suffice; the fuel-exhausted arm is unreachable whenever `budget.toNat ≤ fuel`
(lemma `connectLoopFuel_fuel_irrelevant`).  The result is the success flag
(`True` iff the loop ended via `break`), the list of failed attempts in
order, and the final budget. -/
def connectLoopFuel (f : Nat → ConnOutcome) : Nat → Nat → Int → Bool × List AttemptRec × Int
  | 0, _, budget => (false, [], budget)
  | fuel + 1, i, budget =>
    if 0 < budget then
      match f i with
      | ConnOutcome.success => (true, [], budget)
      | ConnOutcome.refused =>
        let r := connectLoopFuel f fuel (i + 1) (budget - 1)
        (r.1, ⟨ConnOutcome.refused, 1, 2⟩ :: r.2.1, r.2.2)
      | ConnOutcome.otherError =>
        let r := connectLoopFuel f fuel (i + 1) (budget - 4)
        (r.1, ⟨ConnOutcome.otherError, 4, 5⟩ :: r.2.1, r.2.2)
    else (false, [], budget)

/-- The retry loop itself: run with exactly enough fuel for the budget. -/
def connectLoop (f : Nat → ConnOutcome) (i : Nat) (budget : Int) :
    Bool × List AttemptRec × Int :=
  connectLoopFuel f budget.toNat i budget

/-- Embedding of the inner `stop_after()` closure defined in `serve`
(server.py lines 233-243): with no `--stop-after` configured it returns
immediately; otherwise it increments `number_of_requests` and, exactly when
the incremented counter equals `stop_after`, sets `intentional_exit = True`
and calls `_safe_terminate_process`. -/
def stopAfterHook (beh : TermBehavior) (s : ServiceState) : ServiceState :=
  match s.stopAfter with
  | none => s
  | some n =>
    let s1 := { s with numberOfRequests := s.numberOfRequests + 1 }
    if s1.numberOfRequests = n then
      { s1 with
          intentionalExit := true,
          libreofficeProcess := (safeTerminateProcess beh s1.libreofficeProcess).handle }
    else s1

/-- Whether a call completing now would fire the shutdown branch of
`stop_after()` (the `self.number_of_requests == self.stop_after` test at
line 237, after the increment at line 236). -/
def stopAfterTriggers (s : ServiceState) : Bool :=
  match s.stopAfter with
  | none => false
  | some n => s.numberOfRequests + 1 == n

/-- Iterate `stopAfterHook` over a run of successive completed calls. -/
def iterHook (beh : TermBehavior) : Nat → ServiceState → ServiceState
  | 0, s => s
  | k + 1, s => iterHook beh k (stopAfterHook beh s)

/-- Result of a capability operation that does finish: a returned value or a
raised exception (other than the executor's own `TimeoutError`). -/
inductive OpResult
  | value (v : Nat)
  | raised (code : Nat)
  deriving DecidableEq, Repr

/-- Behaviour of one submitted capability operation (`self.conv.convert` or
`self.comp.compare` running inside the per-call `ThreadPoolExecutor`): it
either completes after `duration` time units with a value or a raised
exception, or it never completes. -/
inductive OpBehavior
  | completes (duration : Nat) (outcome : OpResult)
  | hangs
  deriving DecidableEq, Repr

/-- What the RPC caller observes from one `convert` / `compare` call:
the returned result, a surfaced `TimeoutError`, the operation's own exception
surfaced verbatim, or no response at all. -/
inductive CallOutcome
  | ok (value : Nat)
  | timeoutError
  | opError (code : Nat)
  | hang
  deriving DecidableEq, Repr

/-- Whether `future.result(timeout=self.conversion_timeout)` raises
`futures.TimeoutError` for the given operation behaviour: never when the
timeout is `None` (wait forever), always when the operation hangs, and when a
completing operation takes strictly longer than the limit. -/
def timesOut (t : Option Nat) (op : OpBehavior) : Bool :=
  match t, op with
  | none, _ => false
  | some _, OpBehavior.hangs => true
  | some lim, OpBehavior.completes d _ => lim < d

/-- Embedding of the registered `convert` function (server.py lines 260-297).
The `try:` around `future.result` sits inside the `with ThreadPoolExecutor`
block.  On `futures.TimeoutError` it disposes `self.conv.local_context`,
calls `_safe_terminate_process`, and re-raises the timeout to the RPC caller
(lines 288-294); `intentional_exit` is not touched on that path.  On any
other exception from the operation, `future.result` re-raises it verbatim
and neither `stop_after()` nor any teardown runs.  On success it runs
`stop_after()` and returns the result (lines 295-297). -/
def convertCall (beh : TermBehavior) (op : OpBehavior) (s : ServiceState) :
    CallOutcome × ServiceState :=
  if timesOut s.conversionTimeout op then
    (CallOutcome.timeoutError,
      { s with
          convDisposed := true,
          libreofficeProcess := (safeTerminateProcess beh s.libreofficeProcess).handle })
  else
    match op with
    | OpBehavior.hangs => (CallOutcome.hang, s)
    | OpBehavior.completes _ r =>
      match r with
      | OpResult.raised e => (CallOutcome.opError e, s)
      | OpResult.value v => (CallOutcome.ok v, stopAfterHook beh s)

/-- Embedding of the registered `compare` function (server.py lines 299-334).
Unlike `convert`, its `try:` block (line 323) is indented at the same level
as the `with futures.ThreadPoolExecutor()` statement (line 313), i.e. outside
it: leaving the `with` block calls `executor.shutdown(wait=True)`, which
blocks until the submitted `self.comp.compare` task finishes.  Consequently
`future.result(timeout=...)` is only ever reached on an already-finished
future: a hanging operation hangs the call forever, and a completing one —
however slow — returns its result or re-raises its exception, so the
`futures.TimeoutError` branch at lines 325-331 is unreachable. -/
def compareCall (beh : TermBehavior) (op : OpBehavior) (s : ServiceState) :
    CallOutcome × ServiceState :=
  match op with
  | OpBehavior.hangs => (CallOutcome.hang, s)
  | OpBehavior.completes _ r =>
    match r with
    | OpResult.raised e => (CallOutcome.opError e, s)
    | OpResult.value v => (CallOutcome.ok v, stopAfterHook beh s)

/-- How `UnoServer.serve` ends: aborted because the converter retry budget
ran out (lines 193-198), aborted because the comparer retry budget ran out
(lines 221-226), or both clients constructed and `serve_forever` entered
(lines 228-337). -/
inductive ServeResult
  | abortedConverter
  | abortedComparer
  | servingStarted
  deriving DecidableEq, Repr

/-- Result of running `UnoServer.serve`: how it ended, the service state it
left behind, and the failed connection attempts of each capability loop. -/
structure ServeOutcome where
  result : ServeResult
  state : ServiceState
  convTrace : List AttemptRec
  compTrace : List AttemptRec
  deriving DecidableEq, Repr

/-- Embedding of `UnoServer.serve` (server.py lines 169-337).  The converter
loop runs first with `attempts = 20` (line 173); only if it ends in `break`
does the comparer loop run, again with `attempts = 20` (line 201).  If either
loop exhausts its budget, the `while ... else:` arm logs, calls
`_safe_terminate_process`, and returns without ever registering the RPC
functions or entering `serve_forever`.  On the success path the server is
published (`self.xmlrcp_server = server`, line 228), `number_of_requests` is
reset to 0 (line 231), and `serve_forever` starts (line 337). -/
def serve (f g : Nat → ConnOutcome) (beh : TermBehavior) (s : ServiceState) : ServeOutcome :=
  if (connectLoop f 0 20).1 then
    if (connectLoop g 0 20).1 then
      ⟨ServeResult.servingStarted,
        { s with xmlrcpServer := true, serving := true, numberOfRequests := 0 },
        (connectLoop f 0 20).2.1, (connectLoop g 0 20).2.1⟩
    else
      ⟨ServeResult.abortedComparer,
        { s with libreofficeProcess := (safeTerminateProcess beh s.libreofficeProcess).handle },
        (connectLoop f 0 20).2.1, (connectLoop g 0 20).2.1⟩
  else
    ⟨ServeResult.abortedConverter,
      { s with libreofficeProcess := (safeTerminateProcess beh s.libreofficeProcess).handle },
      (connectLoop f 0 20).2.1, []⟩

/-- Result of one call to `UnoServer.stop`: the new state, whether a
termination action reached the worker process, and whether an exception
escaped to the caller of `stop()`. -/
structure StopResult where
  state : ServiceState
  signaled : Bool
  raised : Bool
  deriving DecidableEq, Repr

/-- Embedding of `UnoServer.stop` (server.py lines 339-358).  If
`self.xmlrcp_server` is set, `shutdown()` ends the `serve_forever` loop and
the dummy wake-up connection is attempted with every exception swallowed
(`except Exception: pass`, lines 346-352); the first parameter records
whether that connection raised — it has no effect on the state.  If the thread
object exists it is joined.  Finally, only if the process handle is present
and `poll()` still shows it running is `_safe_terminate_process` called. -/
def stop (_dummyConnRaised : Bool) (beh : TermBehavior) (s : ServiceState) : StopResult :=
  let s1 := if s.xmlrcpServer then { s with serving := false } else s
  let s2 := if s1.threadExists then { s1 with threadAlive := false } else s1
  if s2.libreofficeProcess = some ProcStatus.running then
    { state :=
        { s2 with libreofficeProcess := (safeTerminateProcess beh s2.libreofficeProcess).handle }
      signaled := (safeTerminateProcess beh s2.libreofficeProcess).signaled
      raised := (safeTerminateProcess beh s2.libreofficeProcess).raised }
  else
    { state := s2, signaled := false, raised := false }

/-- What the final `os.kill(pid, 0)` liveness probe in `main` observes
(server.py line 505): either the pid still exists, or the probe raises
`OSError` with the given errno (errno 3 = `ESRCH`, process already gone). -/
inductive KillProbe
  | alive
  | gone (errno : Nat)
  deriving DecidableEq, Repr

/-- Embedding of the exit-code computation at the end of `main` (server.py
lines 503-515), reached after `process.wait()` and `server.stop()`: if the
probe finds the pid alive, return 0 when `intentional_exit` else 1; if it
raises errno 3 the code returns 0 unconditionally ("All good, it was already
dead"); any other errno re-raises (`none`). -/
def mainFinalExit (intentionalExit : Bool) (probe : KillProbe) : Option Nat :=
  match probe with
  | KillProbe.alive => if intentionalExit then some 0 else some 1
  | KillProbe.gone e => if e = 3 then some 0 else none

/-- The `--port` / `--uno-port` configuration values as parsed by argparse
(both plain strings, defaults `"2003"` and `"2002"`). -/
structure MainConfig where
  port : String
  unoPort : String
  deriving DecidableEq, Repr

/-- The `args.uno_port == args.port` validation test in `main`
(server.py line 453). -/
def mainPortsCheck (cfg : MainConfig) : Bool :=
  cfg.unoPort == cfg.port

/-- Observable outcome of the configuration phase of `main` (non-daemon
path, server.py lines 447-481): whether the `RuntimeError` of line 454 was
raised, and whether execution went on to `UnoServer(...)` / `server.start()`,
which is where the LibreOffice worker is spawned (line 96/100). -/
structure MainPhase where
  configErrorRaised : Bool
  workerSpawned : Bool
  deriving DecidableEq, Repr

/-- Embedding of the `main` startup sequence around the port check: the
check at line 453 runs before the `UnoServer` constructor (line 456) and
before `server.start()` (line 481), so a raised `RuntimeError` means no
worker process is ever spawned. -/
def mainRun (cfg : MainConfig) : MainPhase :=
  if mainPortsCheck cfg then ⟨true, false⟩
  else ⟨false, true⟩

/-- A connection-outcome stream on which every attempt fails with a
non-refused `UnoException`. -/
def allOtherErrors : Nat → ConnOutcome :=
  fun _ => ConnOutcome.otherError

/-- A connection-outcome stream on which the first attempt succeeds. -/
def allSuccess : Nat → ConnOutcome :=
  fun _ => ConnOutcome.success

/-- A concrete serving state with a five-unit conversion timeout, used to
probe the timeout paths of `convert` and `compare`. -/
def timeoutProbeState : ServiceState :=
  { libreofficeProcess := some ProcStatus.running
    intentionalExit := false
    xmlrcpServer := true
    serving := true
    threadExists := true
    threadAlive := true
    numberOfRequests := 0
    stopAfter := none
    conversionTimeout := some 5
    convDisposed := false }

/-- A concrete serving state configured with `--stop-after 2` and no
completed requests yet. -/
def quotaStartState : ServiceState :=
  { libreofficeProcess := some ProcStatus.running
    intentionalExit := false
    xmlrcpServer := true
    serving := true
    threadExists := true
    threadAlive := true
    numberOfRequests := 0
    stopAfter := some 2
    conversionTimeout := none
    convDisposed := false }

/-- A concrete state whose request counter has already reached the
configured `--stop-after 1` quota. -/
def quotaReachedState : ServiceState :=
  { libreofficeProcess := none
    intentionalExit := true
    xmlrcpServer := true
    serving := true
    threadExists := true
    threadAlive := true
    numberOfRequests := 1
    stopAfter := some 1
    conversionTimeout := none
    convDisposed := false }

/-- The quota state one completed call before the `--stop-after 2` trigger. -/
def quotaOneBeforeState : ServiceState :=
  { quotaStartState with numberOfRequests := 1 }

/-- A configuration whose RPC port and control-channel port coincide. -/
def collisionConfig : MainConfig :=
  { port := "2003", unoPort := "2003" }

/-! ## Helper lemmas -/

theorem term_handle_none (beh : TermBehavior) (p : Option ProcStatus) :
    (safeTerminateProcess beh p).handle = none := by
  cases p with
  | none => rfl
  | some st => cases st <;> cases beh <;> rfl

theorem term_raised_false (beh : TermBehavior) (p : Option ProcStatus) :
    (safeTerminateProcess beh p).raised = false := by
  cases p with
  | none => rfl
  | some st => cases st <;> cases beh <;> rfl

theorem term_none_not_signaled (beh : TermBehavior) :
    (safeTerminateProcess beh none).signaled = false := rfl

theorem term_exited_not_signaled (beh : TermBehavior) :
    (safeTerminateProcess beh (some ProcStatus.exited)).signaled = false := rfl

theorem connectLoopFuel_nonpos (f : Nat → ConnOutcome) (fuel i : Nat) (b : Int)
    (hb : b ≤ 0) : connectLoopFuel f fuel i b = (false, [], b) := by
  cases fuel with
  | zero => rfl
  | succ n =>
    simp only [connectLoopFuel]
    rw [if_neg (by omega)]

theorem connectLoopFuel_length (f : Nat → ConnOutcome) :
    ∀ (fuel i : Nat) (b : Int), ((connectLoopFuel f fuel i b).2.1).length ≤ b.toNat := by
  intro fuel
  induction fuel with
  | zero => intro i b; simp [connectLoopFuel]
  | succ n ih =>
    intro i b
    by_cases hb : 0 < b
    · simp only [connectLoopFuel, if_pos hb]
      cases f i with
      | success => simp
      | refused =>
        have h1 := ih (i + 1) (b - 1)
        dsimp only [List.length_cons]
        omega
      | otherError =>
        have h1 := ih (i + 1) (b - 4)
        dsimp only [List.length_cons]
        omega
    · rw [connectLoopFuel_nonpos f _ i b (by omega)]
      simp

theorem connectLoopFuel_mem (f : Nat → ConnOutcome) :
    ∀ (fuel i : Nat) (b : Int) (r : AttemptRec), r ∈ (connectLoopFuel f fuel i b).2.1 →
      r = ⟨ConnOutcome.refused, 1, 2⟩ ∨ r = ⟨ConnOutcome.otherError, 4, 5⟩ := by
  intro fuel
  induction fuel with
  | zero => intro i b r hr; simp [connectLoopFuel] at hr
  | succ n ih =>
    intro i b r hr
    by_cases hb : 0 < b
    · simp only [connectLoopFuel, if_pos hb] at hr
      cases hfi : f i <;> rw [hfi] at hr <;> dsimp only at hr
      · simp at hr
      · rcases List.mem_cons.mp hr with h | h
        · exact Or.inl h
        · exact ih (i + 1) (b - 1) r h
      · rcases List.mem_cons.mp hr with h | h
        · exact Or.inr h
        · exact ih (i + 1) (b - 4) r h
    · rw [connectLoopFuel_nonpos f _ i b (by omega)] at hr
      simp at hr

theorem connectLoopFuel_fail_budget (f : Nat → ConnOutcome) :
    ∀ (fuel i : Nat) (b : Int), b.toNat ≤ fuel → (connectLoopFuel f fuel i b).1 = false →
      (connectLoopFuel f fuel i b).2.2 ≤ 0 := by
  intro fuel
  induction fuel with
  | zero =>
    intro i b hfu _
    rw [connectLoopFuel_nonpos f 0 i b (by omega)]
    show b ≤ 0
    omega
  | succ n ih =>
    intro i b hfu hfail
    by_cases hb : 0 < b
    · simp only [connectLoopFuel, if_pos hb] at hfail ⊢
      cases hfi : f i <;> rw [hfi] at hfail <;> dsimp only at hfail ⊢
      · exact Bool.noConfusion hfail
      · exact ih (i + 1) (b - 1) (by omega) hfail
      · exact ih (i + 1) (b - 4) (by omega) hfail
    · rw [connectLoopFuel_nonpos f _ i b (by omega)]
      show b ≤ 0
      omega

theorem connectLoopFuel_fuel_irrelevant (f : Nat → ConnOutcome) :
    ∀ (fuel1 fuel2 i : Nat) (b : Int), b.toNat ≤ fuel1 → b.toNat ≤ fuel2 →
      connectLoopFuel f fuel1 i b = connectLoopFuel f fuel2 i b := by
  intro fuel1
  induction fuel1 with
  | zero =>
    intro fuel2 i b h1 h2
    rw [connectLoopFuel_nonpos f 0 i b (by omega),
      connectLoopFuel_nonpos f fuel2 i b (by omega)]
  | succ n ih =>
    intro fuel2 i b h1 h2
    by_cases hb : 0 < b
    · cases fuel2 with
      | zero => omega
      | succ m =>
        simp only [connectLoopFuel, if_pos hb]
        cases f i with
        | success => rfl
        | refused => rw [ih m (i + 1) (b - 1) (by omega) (by omega)]
        | otherError => rw [ih m (i + 1) (b - 4) (by omega) (by omega)]
    · rw [connectLoopFuel_nonpos f _ i b (by omega),
        connectLoopFuel_nonpos f fuel2 i b (by omega)]

theorem stopAfterHook_stopAfter (beh : TermBehavior) (s : ServiceState) :
    (stopAfterHook beh s).stopAfter = s.stopAfter := by
  cases hsa : s.stopAfter with
  | none => simp [stopAfterHook, hsa]
  | some n =>
    simp only [stopAfterHook, hsa]
    split
    next => simp [hsa]
    next => simp [hsa]

theorem stopAfterHook_counter (beh : TermBehavior) (s : ServiceState) (n : Nat)
    (h : s.stopAfter = some n) :
    (stopAfterHook beh s).numberOfRequests = s.numberOfRequests + 1 := by
  simp only [stopAfterHook, h]
  split
  next => rfl
  next => rfl

theorem stopAfterHook_no_trigger (beh : TermBehavior) (s : ServiceState) (n : Nat)
    (h : s.stopAfter = some n) (hne : s.numberOfRequests + 1 ≠ n) :
    stopAfterHook beh s = { s with numberOfRequests := s.numberOfRequests + 1 } := by
  simp only [stopAfterHook, h]
  split
  next h2 => exact absurd h2 hne
  next => rfl

theorem stopAfterHook_trigger (beh : TermBehavior) (s : ServiceState) (n : Nat)
    (h : s.stopAfter = some n) (heq : s.numberOfRequests + 1 = n) :
    (stopAfterHook beh s).intentionalExit = true ∧
      (stopAfterHook beh s).libreofficeProcess = none := by
  simp only [stopAfterHook, h]
  split
  next => exact ⟨rfl, term_handle_none beh _⟩
  next h2 => exact absurd heq h2

theorem iterHook_stopAfter (beh : TermBehavior) :
    ∀ (k : Nat) (s : ServiceState), (iterHook beh k s).stopAfter = s.stopAfter := by
  intro k
  induction k with
  | zero => intro s; rfl
  | succ m ih =>
    intro s
    show (iterHook beh m (stopAfterHook beh s)).stopAfter = s.stopAfter
    rw [ih, stopAfterHook_stopAfter]

theorem iterHook_counter (beh : TermBehavior) (n : Nat) :
    ∀ (k : Nat) (s : ServiceState), s.stopAfter = some n →
      (iterHook beh k s).numberOfRequests = s.numberOfRequests + k := by
  intro k
  induction k with
  | zero => intro s _; rfl
  | succ m ih =>
    intro s h
    have hs : (stopAfterHook beh s).stopAfter = some n := by
      rw [stopAfterHook_stopAfter]; exact h
    have h2 := ih (stopAfterHook beh s) hs
    have h3 := stopAfterHook_counter beh s n h
    show (iterHook beh m (stopAfterHook beh s)).numberOfRequests = s.numberOfRequests + (m + 1)
    omega

/-! ## Claim theorems -/

/-- Claim C2 (confirmed): in each capability-client connection loop the
attempt budget starts at 20; every failed attempt recorded by the loop is
either a "connection refused" failure costing 1 budget unit with a
2-time-unit sleep, or another connection error costing 4 budget units with a
5-time-unit sleep; any (possibly mixed) failure sequence produces at most 20
failed attempts — in particular at most 20 cost-1 attempts — the loop ends
with budget at 0 or below whenever it fails, and a loop entered with budget
0 or below performs no attempts at all. -/
theorem connect_retry_policy (f : Nat → ConnOutcome) (i : Nat) (r : AttemptRec) (b : Int)
    (hr : r ∈ (connectLoop f i 20).2.1) (hb : b ≤ 0) :
    ((connectLoop f i 20).2.1).length ≤ 20
    ∧ (r.outcome = ConnOutcome.refused → r.cost = 1 ∧ r.sleep = 2)
    ∧ (r.outcome = ConnOutcome.otherError → r.cost = 4 ∧ r.sleep = 5)
    ∧ r.outcome ≠ ConnOutcome.success
    ∧ ((connectLoop f i 20).1 = false → (connectLoop f i 20).2.2 ≤ 0)
    ∧ connectLoop f i b = (false, [], b) := by
  refine ⟨connectLoopFuel_length f ((20 : Int).toNat) i 20, ?_, ?_, ?_,
    fun hfail => connectLoopFuel_fail_budget f ((20 : Int).toNat) i 20 (le_refl _) hfail,
    connectLoopFuel_nonpos f b.toNat i b hb⟩
  · intro h
    rcases connectLoopFuel_mem f ((20 : Int).toNat) i 20 r hr with h2 | h2 <;> subst h2
    · exact ⟨rfl, rfl⟩
    · exact absurd h (by decide)
  · intro h
    rcases connectLoopFuel_mem f ((20 : Int).toNat) i 20 r hr with h2 | h2 <;> subst h2
    · exact absurd h (by decide)
    · exact ⟨rfl, rfl⟩
  · rcases connectLoopFuel_mem f ((20 : Int).toNat) i 20 r hr with h2 | h2 <;> subst h2 <;>
      decide

/-- Witness for `connect_retry_policy`: the stream on which every attempt
fails with a non-refused error exhausts the budget in five attempts. -/
theorem connect_retry_policy_witness :
    (⟨ConnOutcome.otherError, 4, 5⟩ : AttemptRec) ∈ (connectLoop allOtherErrors 0 20).2.1
    ∧ (0 : Int) ≤ 0
    ∧ (((connectLoop allOtherErrors 0 20).2.1).length ≤ 20
      ∧ ((⟨ConnOutcome.otherError, 4, 5⟩ : AttemptRec).outcome = ConnOutcome.refused →
          (⟨ConnOutcome.otherError, 4, 5⟩ : AttemptRec).cost = 1
          ∧ (⟨ConnOutcome.otherError, 4, 5⟩ : AttemptRec).sleep = 2)
      ∧ ((⟨ConnOutcome.otherError, 4, 5⟩ : AttemptRec).outcome = ConnOutcome.otherError →
          (⟨ConnOutcome.otherError, 4, 5⟩ : AttemptRec).cost = 4
          ∧ (⟨ConnOutcome.otherError, 4, 5⟩ : AttemptRec).sleep = 5)
      ∧ (⟨ConnOutcome.otherError, 4, 5⟩ : AttemptRec).outcome ≠ ConnOutcome.success
      ∧ ((connectLoop allOtherErrors 0 20).1 = false →
          (connectLoop allOtherErrors 0 20).2.2 ≤ 0)
      ∧ connectLoop allOtherErrors 0 0 = (false, [], 0)) :=
  ⟨by decide, by decide,
    connect_retry_policy allOtherErrors 0 ⟨ConnOutcome.otherError, 4, 5⟩ 0
      (by decide) (by decide)⟩

/-- Claim C3 (code bug): the spec says an unintentional worker death yields
top-level exit code 1, but after `process.wait()` has reaped the child the
final `os.kill(pid, 0)` probe raises errno 3 and `main` returns 0
unconditionally; the exit-code-1 branch is reachable only if the pid is
still visible at the probe.  This theorem evaluates the embedded exit-code
computation at the failing input and at the two neighbouring inputs. -/
theorem main_exit_dead_worker :
    mainFinalExit false (KillProbe.gone 3) = some 0
    ∧ mainFinalExit false KillProbe.alive = some 1
    ∧ mainFinalExit true (KillProbe.gone 3) = some 0 := by decide

/-- Claim C8 (confirmed): calling `_safe_terminate_process` on a handle that
is `None` or whose process has already exited sends no termination action to
the process and raises nothing to its caller — the already-dead case is
treated as success. -/
theorem terminate_already_dead_noop (beh : TermBehavior) (p : Option ProcStatus)
    (h : p = none ∨ p = some ProcStatus.exited) :
    (safeTerminateProcess beh p).signaled = false
    ∧ (safeTerminateProcess beh p).raised = false := by
  rcases h with h | h <;> subst h <;> exact ⟨rfl, rfl⟩

/-- Witness for `terminate_already_dead_noop` on an already-exited handle. -/
theorem terminate_already_dead_noop_witness :
    ((some ProcStatus.exited : Option ProcStatus) = none
      ∨ (some ProcStatus.exited : Option ProcStatus) = some ProcStatus.exited)
    ∧ ((safeTerminateProcess TermBehavior.gracefulTimeoutKillFail
          (some ProcStatus.exited)).signaled = false
      ∧ (safeTerminateProcess TermBehavior.gracefulTimeoutKillFail
          (some ProcStatus.exited)).raised = false) :=
  ⟨Or.inr rfl,
    terminate_already_dead_noop TermBehavior.gracefulTimeoutKillFail
      (some ProcStatus.exited) (Or.inr rfl)⟩

/-- Claim C10 (confirmed): after any call to `_safe_terminate_process`
returns — already dead, graceful, force-killed, or force-kill failed — the
stored process handle is `None`, so a later invocation of the routine sends
nothing to the process, and a later `stop()` on such a state sends nothing
to the process either. -/
theorem terminate_clears_handle (beh beh2 : TermBehavior) (p : Option ProcStatus)
    (c : Bool) (s : ServiceState) :
    (safeTerminateProcess beh p).handle = none
    ∧ (safeTerminateProcess beh2 (safeTerminateProcess beh p).handle).signaled = false
    ∧ (safeTerminateProcess beh2 (safeTerminateProcess beh p).handle).handle = none
    ∧ (stop c beh2
        { s with libreofficeProcess := (safeTerminateProcess beh p).handle }).signaled
        = false := by
  have h := term_handle_none beh p
  have key : ∀ (c2 : Bool) (b2 : TermBehavior) (t : ServiceState),
      t.libreofficeProcess = none → (stop c2 b2 t).signaled = false := by
    intro c2 b2 t ht
    cases hx : t.xmlrcpServer <;> cases hte : t.threadExists <;>
      simp [stop, hx, hte, ht]
  refine ⟨h, ?_, ?_, ?_⟩
  · rw [h]; rfl
  · rw [h]; rfl
  · exact key c beh2 _ (by rw [h])

/-- Claim C9 (confirmed): whenever the configured RPC port equals the
configured control-channel port, `main` raises its configuration
`RuntimeError` before the `UnoServer` is constructed, so no worker process
is ever spawned. -/
theorem port_collision_aborts (cfg : MainConfig) (h : cfg.port = cfg.unoPort) :
    mainRun cfg = ⟨true, false⟩ := by
  have hc : mainPortsCheck cfg = true := by
    simp [mainPortsCheck, h]
  simp [mainRun, hc]

/-- Witness for `port_collision_aborts` at the concrete colliding
configuration. -/
theorem port_collision_aborts_witness :
    collisionConfig.port = collisionConfig.unoPort
    ∧ mainRun collisionConfig = ⟨true, false⟩ :=
  ⟨rfl, port_collision_aborts collisionConfig rfl⟩

/-- Claim C1 (corrected), counterexample: a `convert` call that times out
surfaces the timeout error but leaves the intentional-exit flag `false`
(the code never sets it on the timeout path), and a `compare` call whose
operation takes 100 time units against a 5-unit timeout still returns its
result normally (the comparer's timeout branch is unreachable), refuting the
claim as stated. -/
theorem convert_timeout_flag_cex :
    (convertCall TermBehavior.gracefulOk OpBehavior.hangs timeoutProbeState).1
        = CallOutcome.timeoutError
    ∧ (convertCall TermBehavior.gracefulOk OpBehavior.hangs timeoutProbeState).2.intentionalExit
        = false
    ∧ (compareCall TermBehavior.gracefulOk
          (OpBehavior.completes 100 (OpResult.value 1)) timeoutProbeState).1
        = CallOutcome.ok 1 := by decide

/-- Claim C1 (amended): for every `convert` call whose capability operation
does not produce a result within the configured conversion timeout, the
executor disposes the Converter's control session, initiates worker
termination (the handle is cleared through the safe-termination routine),
and surfaces a timeout error to the RPC caller, leaving the intentional-exit
flag unchanged; a `compare` call awaits its operation to completion before
the deadline is consulted, so `compare` never surfaces a timeout error. -/
theorem convert_timeout_teardown (beh : TermBehavior) (op op2 : OpBehavior)
    (s s2 : ServiceState) (h : timesOut s.conversionTimeout op = true) :
    (convertCall beh op s).1 = CallOutcome.timeoutError
    ∧ (convertCall beh op s).2.convDisposed = true
    ∧ (convertCall beh op s).2.libreofficeProcess = none
    ∧ (convertCall beh op s).2.intentionalExit = s.intentionalExit
    ∧ (compareCall beh op2 s2).1 ≠ CallOutcome.timeoutError := by
  have h1 : convertCall beh op s =
      (CallOutcome.timeoutError,
        { s with
            convDisposed := true,
            libreofficeProcess := (safeTerminateProcess beh s.libreofficeProcess).handle }) := by
    simp [convertCall, h]
  refine ⟨by rw [h1], by rw [h1], ?_, by rw [h1], ?_⟩
  · rw [h1]
    exact term_handle_none beh _
  · cases op2 with
    | hangs => simp [compareCall]
    | completes d r => cases r <;> simp [compareCall]

/-- Witness for `convert_timeout_teardown`: a convert operation taking 9
time units against the 5-unit timeout of `timeoutProbeState`. -/
theorem convert_timeout_teardown_witness :
    timesOut timeoutProbeState.conversionTimeout
        (OpBehavior.completes 9 (OpResult.value 0)) = true
    ∧ ((convertCall TermBehavior.gracefulTimeoutKillFail
          (OpBehavior.completes 9 (OpResult.value 0)) timeoutProbeState).1
          = CallOutcome.timeoutError
      ∧ (convertCall TermBehavior.gracefulTimeoutKillFail
          (OpBehavior.completes 9 (OpResult.value 0)) timeoutProbeState).2.convDisposed = true
      ∧ (convertCall TermBehavior.gracefulTimeoutKillFail
          (OpBehavior.completes 9 (OpResult.value 0)) timeoutProbeState).2.libreofficeProcess
          = none
      ∧ (convertCall TermBehavior.gracefulTimeoutKillFail
          (OpBehavior.completes 9 (OpResult.value 0)) timeoutProbeState).2.intentionalExit
          = timeoutProbeState.intentionalExit
      ∧ (compareCall TermBehavior.gracefulTimeoutKillFail
          (OpBehavior.completes 9 (OpResult.value 0)) timeoutProbeState).1
          ≠ CallOutcome.timeoutError) :=
  ⟨by decide,
    convert_timeout_teardown TermBehavior.gracefulTimeoutKillFail
      (OpBehavior.completes 9 (OpResult.value 0))
      (OpBehavior.completes 9 (OpResult.value 0))
      timeoutProbeState timeoutProbeState (by decide)⟩

/-- Claim C4 (confirmed): with `stop-after = N` (N at least 1) and a fresh
request counter, the shutdown branch of `stop_after()` fires on the k-th
completed call exactly when k = N; the N-th call sets the intentional-exit
flag and starts worker termination, a successful convert on that N-th call
still returns its result (and its state change is exactly the hook), and
the (N+1)-th completed call changes neither the flag nor the process
handle — no second teardown. -/
theorem stopAfter_exactly_once (beh : TermBehavior) (N k v : Nat) (s : ServiceState)
    (hsa : s.stopAfter = some N) (h0 : s.numberOfRequests = 0) (hN : 1 ≤ N) :
    (stopAfterTriggers (iterHook beh k s) = true ↔ k + 1 = N)
    ∧ (stopAfterHook beh (iterHook beh (N - 1) s)).intentionalExit = true
    ∧ (stopAfterHook beh (iterHook beh (N - 1) s)).libreofficeProcess = none
    ∧ (convertCall beh (OpBehavior.completes 0 (OpResult.value v))
        (iterHook beh (N - 1) s)).1 = CallOutcome.ok v
    ∧ (convertCall beh (OpBehavior.completes 0 (OpResult.value v))
        (iterHook beh (N - 1) s)).2 = stopAfterHook beh (iterHook beh (N - 1) s)
    ∧ (stopAfterHook beh (iterHook beh N s)).intentionalExit
        = (iterHook beh N s).intentionalExit
    ∧ (stopAfterHook beh (iterHook beh N s)).libreofficeProcess
        = (iterHook beh N s).libreofficeProcess := by
  have hK : ∀ m, (iterHook beh m s).stopAfter = some N := by
    intro m; rw [iterHook_stopAfter]; exact hsa
  have hC : ∀ m, (iterHook beh m s).numberOfRequests = m := by
    intro m
    have := iterHook_counter beh N m s hsa
    omega
  have heq : (iterHook beh (N - 1) s).numberOfRequests + 1 = N := by
    have := hC (N - 1); omega
  have hne : (iterHook beh N s).numberOfRequests + 1 ≠ N := by
    have := hC N; omega
  have hnt : timesOut (iterHook beh (N - 1) s).conversionTimeout
      (OpBehavior.completes 0 (OpResult.value v)) = false := by
    cases hct : (iterHook beh (N - 1) s).conversionTimeout <;> simp [timesOut]
  have hnoTrig := stopAfterHook_no_trigger beh (iterHook beh N s) N (hK N) hne
  refine ⟨?_, (stopAfterHook_trigger beh _ N (hK _) heq).1,
    (stopAfterHook_trigger beh _ N (hK _) heq).2, ?_, ?_, ?_, ?_⟩
  · simp [stopAfterTriggers, hK k, hC k]
  · simp [convertCall, hnt]
  · simp [convertCall, hnt]
  · rw [hnoTrig]
  · rw [hnoTrig]

/-- Witness for `stopAfter_exactly_once` with `stop-after = 2` from the
concrete fresh state. -/
theorem stopAfter_exactly_once_witness :
    quotaStartState.stopAfter = some 2
    ∧ quotaStartState.numberOfRequests = 0
    ∧ 1 ≤ 2
    ∧ ((stopAfterTriggers (iterHook TermBehavior.gracefulOk 1 quotaStartState) = true
          ↔ 1 + 1 = 2)
      ∧ (stopAfterHook TermBehavior.gracefulOk
          (iterHook TermBehavior.gracefulOk (2 - 1) quotaStartState)).intentionalExit = true
      ∧ (stopAfterHook TermBehavior.gracefulOk
          (iterHook TermBehavior.gracefulOk (2 - 1) quotaStartState)).libreofficeProcess = none
      ∧ (convertCall TermBehavior.gracefulOk (OpBehavior.completes 0 (OpResult.value 7))
          (iterHook TermBehavior.gracefulOk (2 - 1) quotaStartState)).1 = CallOutcome.ok 7
      ∧ (convertCall TermBehavior.gracefulOk (OpBehavior.completes 0 (OpResult.value 7))
          (iterHook TermBehavior.gracefulOk (2 - 1) quotaStartState)).2
          = stopAfterHook TermBehavior.gracefulOk
              (iterHook TermBehavior.gracefulOk (2 - 1) quotaStartState)
      ∧ (stopAfterHook TermBehavior.gracefulOk
          (iterHook TermBehavior.gracefulOk 2 quotaStartState)).intentionalExit
          = (iterHook TermBehavior.gracefulOk 2 quotaStartState).intentionalExit
      ∧ (stopAfterHook TermBehavior.gracefulOk
          (iterHook TermBehavior.gracefulOk 2 quotaStartState)).libreofficeProcess
          = (iterHook TermBehavior.gracefulOk 2 quotaStartState).libreofficeProcess) :=
  ⟨rfl, rfl, by decide,
    stopAfter_exactly_once TermBehavior.gracefulOk 2 1 7 quotaStartState rfl rfl
      (by decide)⟩

/-- Claim C5 (confirmed): `stop()` is idempotent — for every service state
(and any environment behaviours for the dummy connection and the
termination routine), calling `stop` twice yields the same end state as
calling it once, and neither invocation raises an exception to its
caller. -/
theorem stop_idempotent (c1 c2 : Bool) (b1 b2 : TermBehavior) (s : ServiceState) :
    (stop c2 b2 (stop c1 b1 s).state).state = (stop c1 b1 s).state
    ∧ (stop c1 b1 s).raised = false
    ∧ (stop c2 b2 (stop c1 b1 s).state).raised = false := by
  rcases s with ⟨lp, ie, xs, sv, te, ta, nr, sa, ct, cd⟩
  rcases lp with _ | st
  · cases xs <;> cases te <;>
      simp [stop, term_handle_none, term_raised_false]
  · cases st <;> cases xs <;> cases te <;>
      simp [stop, term_handle_none, term_raised_false]

/-- Claim C6 (confirmed): the converter connection loop runs first and the
comparer loop produces attempts only when the converter loop succeeded; if
either loop exhausts its budget, `serve` ends in the corresponding aborted
result with the worker terminated (handle cleared) and never reaches the
serving phase (the `xmlrcpServer` and `serving` fields are untouched). -/
theorem serve_abort_sequential (f g : Nat → ConnOutcome) (beh : TermBehavior)
    (s : ServiceState)
    (h : (connectLoop f 0 20).1 = false ∨ (connectLoop g 0 20).1 = false) :
    (serve f g beh s).result ≠ ServeResult.servingStarted
    ∧ (serve f g beh s).state.libreofficeProcess = none
    ∧ (serve f g beh s).state.serving = s.serving
    ∧ (serve f g beh s).state.xmlrcpServer = s.xmlrcpServer
    ∧ (serve f g beh s).convTrace = (connectLoop f 0 20).2.1
    ∧ (serve f g beh s).compTrace
        = (if (connectLoop f 0 20).1 then (connectLoop g 0 20).2.1 else []) := by
  rcases h with h | h
  · simp [serve, h, term_handle_none]
  · cases hf : (connectLoop f 0 20).1 <;> simp [serve, hf, h, term_handle_none]

/-- Witness for `serve_abort_sequential`: the converter loop fails on the
all-other-errors stream while the comparer stream would have succeeded. -/
theorem serve_abort_sequential_witness :
    ((connectLoop allOtherErrors 0 20).1 = false
      ∨ (connectLoop allSuccess 0 20).1 = false)
    ∧ ((serve allOtherErrors allSuccess TermBehavior.gracefulOk timeoutProbeState).result
          ≠ ServeResult.servingStarted
      ∧ (serve allOtherErrors allSuccess TermBehavior.gracefulOk
          timeoutProbeState).state.libreofficeProcess = none
      ∧ (serve allOtherErrors allSuccess TermBehavior.gracefulOk
          timeoutProbeState).state.serving = timeoutProbeState.serving
      ∧ (serve allOtherErrors allSuccess TermBehavior.gracefulOk
          timeoutProbeState).state.xmlrcpServer = timeoutProbeState.xmlrcpServer
      ∧ (serve allOtherErrors allSuccess TermBehavior.gracefulOk
          timeoutProbeState).convTrace = (connectLoop allOtherErrors 0 20).2.1
      ∧ (serve allOtherErrors allSuccess TermBehavior.gracefulOk
          timeoutProbeState).compTrace
          = (if (connectLoop allOtherErrors 0 20).1
              then (connectLoop allSuccess 0 20).2.1 else [])) :=
  ⟨Or.inl (by decide),
    serve_abort_sequential allOtherErrors allSuccess TermBehavior.gracefulOk
      timeoutProbeState (Or.inl (by decide))⟩

/-- Claim C7 (corrected), counterexample: from the concrete state whose
counter has already reached `stop-after = 1`, one more completed call
increments the counter to 2 — the counter does accept further increments
after the quota is reached, refuting the claim as stated. -/
theorem stopAfter_counter_increments_cex :
    quotaReachedState.stopAfter = some 1
    ∧ quotaReachedState.numberOfRequests = 1
    ∧ (stopAfterHook TermBehavior.gracefulOk quotaReachedState).numberOfRequests = 2 := by
  decide

/-- Claim C7 (amended): when the counter first reaches the configured
stop-after value the service transitions to shutting down (intentional-exit
set, worker termination initiated); the counter keeps incrementing on any
later completed call, but such a call can never fire the shutdown branch
again nor touch the flag or the process handle. -/
theorem stopAfter_reached_behavior (beh : TermBehavior) (s s2 : ServiceState)
    (n n2 : Nat) (h : s.stopAfter = some n) (h2 : n ≤ s.numberOfRequests)
    (g : s2.stopAfter = some n2) (g2 : s2.numberOfRequests + 1 = n2) :
    (stopAfterHook beh s).numberOfRequests = s.numberOfRequests + 1
    ∧ stopAfterTriggers s = false
    ∧ (stopAfterHook beh s).intentionalExit = s.intentionalExit
    ∧ (stopAfterHook beh s).libreofficeProcess = s.libreofficeProcess
    ∧ (stopAfterHook beh s2).intentionalExit = true
    ∧ (stopAfterHook beh s2).libreofficeProcess = none := by
  have hne : s.numberOfRequests + 1 ≠ n := by omega
  have hnt := stopAfterHook_no_trigger beh s n h hne
  refine ⟨stopAfterHook_counter beh s n h, ?_, ?_, ?_,
    (stopAfterHook_trigger beh s2 n2 g g2).1, (stopAfterHook_trigger beh s2 n2 g g2).2⟩
  · simp only [stopAfterTriggers, h, beq_eq_false_iff_ne, ne_eq]
    omega
  · rw [hnt]
  · rw [hnt]

/-- Witness for `stopAfter_reached_behavior` at the concrete reached state
and the concrete one-before-trigger state. -/
theorem stopAfter_reached_behavior_witness :
    quotaReachedState.stopAfter = some 1
    ∧ 1 ≤ quotaReachedState.numberOfRequests
    ∧ quotaOneBeforeState.stopAfter = some 2
    ∧ quotaOneBeforeState.numberOfRequests + 1 = 2
    ∧ ((stopAfterHook TermBehavior.gracefulOk quotaReachedState).numberOfRequests
          = quotaReachedState.numberOfRequests + 1
      ∧ stopAfterTriggers quotaReachedState = false
      ∧ (stopAfterHook TermBehavior.gracefulOk quotaReachedState).intentionalExit
          = quotaReachedState.intentionalExit
      ∧ (stopAfterHook TermBehavior.gracefulOk quotaReachedState).libreofficeProcess
          = quotaReachedState.libreofficeProcess
      ∧ (stopAfterHook TermBehavior.gracefulOk quotaOneBeforeState).intentionalExit = true
      ∧ (stopAfterHook TermBehavior.gracefulOk quotaOneBeforeState).libreofficeProcess
          = none) :=
  ⟨rfl, by decide, rfl, by decide,
    stopAfter_reached_behavior TermBehavior.gracefulOk quotaReachedState
      quotaOneBeforeState 1 2 rfl (by decide) rfl (by decide)⟩

end Unoserver
